import Mathlib

/-!
# Tariff stacking engine — shallow embedding

A shallow embedding of the deterministic tariff-stacking engine
(`stacking_logic.py`, the aggregate endpoint of `app.py`, and the
exemption-catalog path of `exemption_database.py`).

Monetary values, rates and percentages are embedded as exact rationals
(`ℚ`); the Python code computes with floats, and the claims under study
are about exact decision-tree arithmetic, not rounding.  Python `dict`
inputs become structures with `Option` fields (`.get` with a default is
`Option.getD`).  Python string formatting such as `f"{x:.1f}"` is
rendered with `toString`; no claim depends on the digits of an
interpolated number, only on constant prefixes of reasoning strings.
A Python function that can raise is embedded with an `Option` result,
`none` standing for the raised exception.
-/

/-- A detected tariff, as produced upstream: regulatory code, display
name, `rate` (fraction of value), nominal `amount`, category tag. -/
structure Tariff where
  code : String
  name : String
  rate : ℚ
  amount : ℚ
  category : String
  deriving DecidableEq

/-- Shipment facts passed to every per-category decision tree. -/
structure ProductInfo where
  origin_country : String
  hs_code : String
  value : ℚ
  deriving DecidableEq

/-- The normalized answers dict `{question_id: answer_value}`.  Each
field is `Option`al: `answers.get(key, default)` is `getD`. -/
structure Answers where
  usmca_qualified : Option Bool := none
  steel_percentage : Option ℚ := none
  steel_origin_country : Option String := none
  steel_melted_poured_us : Option Bool := none
  aluminum_percentage : Option ℚ := none
  aluminum_origin_country : Option String := none
  aluminum_smelted_cast_us : Option Bool := none
  copper_percentage : Option ℚ := none
  lumber_percentage : Option ℚ := none
  ustr_product_exclusion : Option Bool := none
  ustr_manufacturing_equipment : Option Bool := none
  column_1_duty_rate : Option ℚ := none
  is_humanitarian_donation : Option Bool := none
  us_content_percentage : Option ℚ := none
  is_informational_materials : Option Bool := none
  deriving DecidableEq

/-- Per-category verdict: the `result` dict built by each
`apply_*_logic` function. -/
structure StackingResult where
  excluded : Bool
  exemption_code : Option String
  reasoning : String
  final_amount : ℚ
  deriving DecidableEq

/-- `STACKING_ORDER` — the CBP evaluation-priority table. -/
def STACKING_ORDER : List (String × Nat) :=
  [("section_301", 1),
   ("ieepa_fentanyl", 2),
   ("section_232_automotive", 3),
   ("section_232_buses", 4),
   ("section_232_steel", 5),
   ("section_232_aluminum", 6),
   ("section_232_copper", 7),
   ("section_232_lumber", 8),
   ("ieepa_reciprocal", 9)]

/-- `STACKING_ORDER.get(t['category'], 999)` — the sort key used by
`analyze_stacking`. -/
def stackingOrderKey (category : String) : Nat :=
  ((STACKING_ORDER.find? (fun p => p.1 == category)).map Prod.snd).getD 999

/-- `apply_section_232_steel_logic` from `stacking_logic.py`. -/
def apply_section_232_steel_logic (tariff : Tariff) (answers : Answers)
    (product_info : ProductInfo) : StackingResult :=
  let origin := product_info.origin_country
  let steel_pct := answers.steel_percentage.getD 0
  if steel_pct = 0 then
    { excluded := true, exemption_code := some "N/A",
      reasoning := "NOT APPLICABLE: Product has 0% steel composition",
      final_amount := 0 }
  else if origin = "CA" ∨ origin = "MX" then
    if answers.usmca_qualified.getD false then
      { excluded := true,
        exemption_code := some (if origin = "CA" then "9903.01.26" else "9903.01.27"),
        reasoning := "EXEMPT: USMCA-qualified product from " ++ origin,
        final_amount := 0 }
    else
      { excluded := false, exemption_code := none,
        reasoning := "APPLIES: Product from " ++ origin ++ " does not qualify for USMCA exemption",
        final_amount := tariff.amount }
  else
    let steel_origin := answers.steel_origin_country.getD ""
    if steel_origin = "US" then
      if answers.steel_melted_poured_us.getD false then
        { excluded := true, exemption_code := some "9903.81.92",
          reasoning := "EXEMPT: Steel melted and poured in the United States",
          final_amount := 0 }
      else
        { excluded := false, exemption_code := none,
          reasoning := "APPLIES to " ++ toString steel_pct ++ "% steel portion: Steel from US but not melted/poured in US",
          final_amount := product_info.value * (steel_pct / 100) * tariff.rate }
    else
      { excluded := false, exemption_code := none,
        reasoning := "APPLIES to " ++ toString steel_pct ++ "% steel portion: Steel from " ++ steel_origin,
        final_amount := product_info.value * (steel_pct / 100) * tariff.rate }

/-- `apply_section_232_aluminum_logic` from `stacking_logic.py`. -/
def apply_section_232_aluminum_logic (tariff : Tariff) (answers : Answers)
    (product_info : ProductInfo) : StackingResult :=
  let origin := product_info.origin_country
  let aluminum_pct := answers.aluminum_percentage.getD 0
  if aluminum_pct = 0 then
    { excluded := true, exemption_code := some "N/A",
      reasoning := "NOT APPLICABLE: Product has 0% aluminum composition",
      final_amount := 0 }
  else if origin = "CA" ∨ origin = "MX" then
    if answers.usmca_qualified.getD false then
      { excluded := true,
        exemption_code := some (if origin = "CA" then "9903.01.26" else "9903.01.27"),
        reasoning := "EXEMPT: USMCA-qualified product from " ++ origin,
        final_amount := 0 }
    else
      { excluded := false, exemption_code := none,
        reasoning := "APPLIES: Product from " ++ origin ++ " does not qualify for USMCA exemption",
        final_amount := tariff.amount }
  else
    let aluminum_origin := answers.aluminum_origin_country.getD ""
    if aluminum_origin = "US" then
      if answers.aluminum_smelted_cast_us.getD false then
        { excluded := true, exemption_code := some "US_ORIGIN",
          reasoning := "EXEMPT: Aluminum smelted and cast in the United States",
          final_amount := 0 }
      else
        { excluded := false, exemption_code := none,
          reasoning := "APPLIES to " ++ toString aluminum_pct ++ "% aluminum portion: Aluminum from US but not smelted/cast in US",
          final_amount := product_info.value * (aluminum_pct / 100) * tariff.rate }
    else
      { excluded := false, exemption_code := none,
        reasoning := "APPLIES to " ++ toString aluminum_pct ++ "% aluminum portion: Aluminum from " ++ aluminum_origin,
        final_amount := product_info.value * (aluminum_pct / 100) * tariff.rate }

/-- `apply_section_232_copper_logic` from `stacking_logic.py`. -/
def apply_section_232_copper_logic (tariff : Tariff) (answers : Answers)
    (product_info : ProductInfo) : StackingResult :=
  let origin := product_info.origin_country
  let copper_pct := answers.copper_percentage.getD 0
  if copper_pct = 0 then
    { excluded := true, exemption_code := some "N/A",
      reasoning := "NOT APPLICABLE: Product has 0% copper composition",
      final_amount := 0 }
  else if origin = "CA" ∨ origin = "MX" then
    if answers.usmca_qualified.getD false then
      { excluded := true,
        exemption_code := some (if origin = "CA" then "9903.01.26" else "9903.01.27"),
        reasoning := "EXEMPT: USMCA-qualified product from " ++ origin,
        final_amount := 0 }
    else
      { excluded := false, exemption_code := none,
        reasoning := "APPLIES to " ++ toString copper_pct ++ "% copper portion at 50% rate",
        final_amount := product_info.value * (copper_pct / 100) * tariff.rate }
  else
    { excluded := false, exemption_code := none,
      reasoning := "APPLIES to " ++ toString copper_pct ++ "% copper portion at 50% rate",
      final_amount := product_info.value * (copper_pct / 100) * tariff.rate }

/-- `apply_section_232_lumber_logic` from `stacking_logic.py`. -/
def apply_section_232_lumber_logic (tariff : Tariff) (answers : Answers)
    (product_info : ProductInfo) : StackingResult :=
  let lumber_pct := answers.lumber_percentage.getD 0
  if lumber_pct = 0 then
    { excluded := true, exemption_code := some "N/A",
      reasoning := "NOT APPLICABLE: Product has 0% lumber composition",
      final_amount := 0 }
  else
    { excluded := false, exemption_code := none,
      reasoning := "APPLIES to " ++ toString lumber_pct ++ "% lumber portion at 10% rate",
      final_amount := product_info.value * (lumber_pct / 100) * tariff.rate }

/-- `apply_section_232_buses_logic` from `stacking_logic.py`: always
applies in full (`final_amount` stays at the nominal `amount`). -/
def apply_section_232_buses_logic (tariff : Tariff) (_answers : Answers)
    (_product_info : ProductInfo) : StackingResult :=
  { excluded := false, exemption_code := none,
    reasoning := "APPLIES: Section 232 Buses tariff at 10% rate (Heading 8702, no USMCA exemptions available)",
    final_amount := tariff.amount }

/-- `apply_section_232_automotive_logic` from `stacking_logic.py`:
rebated rate, with a partial USMCA exemption for CA/MX that sets
`excluded := true` while keeping a nonzero `final_amount`. -/
def apply_section_232_automotive_logic (tariff : Tariff) (answers : Answers)
    (product_info : ProductInfo) : StackingResult :=
  let origin := product_info.origin_country
  let AUTO_REBATE_RATE : ℚ := 0.0375
  let US_ASSEMBLY_SHARE : ℚ := 0.33
  let US_AUTO_CONTENT_SHARE : ℚ := 0.40
  let usmca_share : ℚ := if origin = "CA" then 0.9136 else if origin = "MX" then 0.7145 else 0
  let rebate := AUTO_REBATE_RATE * US_ASSEMBLY_SHARE
  let effective_rate := tariff.rate - rebate
  if origin = "CA" ∨ origin = "MX" then
    if answers.usmca_qualified.getD false then
      let adjusted_usmca_share := usmca_share * US_AUTO_CONTENT_SHARE
      let final_rate_after_exemption := effective_rate * (1 - adjusted_usmca_share)
      let final_amount := product_info.value * final_rate_after_exemption
      { excluded := true,
        exemption_code := some (if origin = "CA" then "9903.01.26" else "9903.01.27"),
        reasoning := "PARTIALLY EXEMPT: USMCA-qualified automotive from " ++ origin ++
          ". Base rate 25% - auto rebate 1.24% = 23.76%. USMCA adjusted exemption " ++
          toString (adjusted_usmca_share * 100) ++ "% (" ++ toString (usmca_share * 100) ++
          "% share × 40% US content). Final effective rate: " ++
          toString (final_rate_after_exemption * 100) ++ "%",
        final_amount := final_amount }
    else
      { excluded := false, exemption_code := none,
        reasoning := "APPLIES: Automotive from " ++ origin ++ " (not USMCA-qualified). Rate: 25% - auto rebate 1.24% = " ++
          toString (effective_rate * 100) ++ "%",
        final_amount := product_info.value * effective_rate }
  else
    { excluded := false, exemption_code := none,
      reasoning := "APPLIES: Automotive tariff with US assembly rebate. Rate: 25% - 1.24% = " ++
        toString (effective_rate * 100) ++ "%",
      final_amount := product_info.value * effective_rate }

/-- `apply_section_301_logic` from `stacking_logic.py`. -/
def apply_section_301_logic (tariff : Tariff) (answers : Answers)
    (product_info : ProductInfo) : StackingResult :=
  let origin := product_info.origin_country
  if ¬ (origin ∈ (["CN", "HK", "MO"] : List String)) then
    { excluded := true, exemption_code := some "N/A",
      reasoning := "NOT APPLICABLE: Product not from China/Hong Kong/Macau (origin: " ++ origin ++ ")",
      final_amount := 0 }
  else if answers.ustr_product_exclusion.getD false then
    { excluded := true, exemption_code := some "9903.88.69",
      reasoning := "EXEMPT: Product matches one of 164 USTR product-specific exclusions",
      final_amount := 0 }
  else if answers.ustr_manufacturing_equipment.getD false then
    { excluded := true, exemption_code := some "9903.88.70",
      reasoning := "EXEMPT: Product classified as manufacturing equipment",
      final_amount := 0 }
  else
    { excluded := false, exemption_code := none,
      reasoning := "APPLIES: Product from " ++ origin ++ ", no USTR exclusions apply",
      final_amount := tariff.amount }

/-- `apply_ieepa_fentanyl_logic` from `stacking_logic.py`. -/
def apply_ieepa_fentanyl_logic (tariff : Tariff) (_answers : Answers)
    (product_info : ProductInfo) : StackingResult :=
  let origin := product_info.origin_country
  if ¬ (origin ∈ (["CN", "HK", "MO"] : List String)) then
    { excluded := true, exemption_code := some "N/A",
      reasoning := "NOT APPLICABLE: Product not from China/Hong Kong/Macau (origin: " ++ origin ++ ")",
      final_amount := 0 }
  else
    { excluded := false, exemption_code := none,
      reasoning := "APPLIES: IEEPA Fentanyl tariff on 100% of product value (no exemptions available)",
      final_amount := tariff.amount }

/-- The `section_232_results` dict `{material: analysis_result}` threaded
through `analyze_stacking` into `apply_ieepa_reciprocal_logic`. -/
structure Section232Results where
  steel : Option StackingResult := none
  aluminum : Option StackingResult := none
  copper : Option StackingResult := none
  lumber : Option StackingResult := none
  deriving DecidableEq

/-- `column_2_countries` of `apply_ieepa_reciprocal_logic`. -/
def column_2_countries : List String := ["BY", "CU", "KP", "RU"]

/-- `eu_countries` of `apply_ieepa_reciprocal_logic`. -/
def eu_countries : List String :=
  ["AT", "BE", "BG", "HR", "CY", "CZ", "DK", "EE", "FI", "FR",
   "DE", "GR", "HU", "IE", "IT", "LV", "LT", "LU", "MT", "NL",
   "PL", "PT", "RO", "SK", "SI", "ES", "SE"]

/-- `special_calculation_countries = eu_countries + ['JP', 'KR']`. -/
def special_calculation_countries : List String := eu_countries ++ ["JP", "KR"]

/-- The Section-232-applied material percentage sum computed inside
`apply_ieepa_reciprocal_logic`: a material's declared percentage counts
only when that material's verdict is present in `section_232_results`
and not excluded. -/
def counted_232_pct (answers : Answers) (s232 : Section232Results) : ℚ :=
  (match s232.steel with
   | some r => if r.excluded then 0 else answers.steel_percentage.getD 0
   | none => 0) +
  (match s232.aluminum with
   | some r => if r.excluded then 0 else answers.aluminum_percentage.getD 0
   | none => 0) +
  (match s232.copper with
   | some r => if r.excluded then 0 else answers.copper_percentage.getD 0
   | none => 0) +
  (match s232.lumber with
   | some r => if r.excluded then 0 else answers.lumber_percentage.getD 0
   | none => 0)

/-- `apply_ieepa_reciprocal_logic` from `stacking_logic.py`.

The EU/JP/KR branch with a Column-1 rate strictly below 15 reads the
variable `non_232_pct` before its (later) assignment, so CPython raises
`UnboundLocalError` there; that raise is embedded as `none`.  Every
other path returns a verdict. -/
def apply_ieepa_reciprocal_logic (tariff : Tariff) (answers : Answers)
    (product_info : ProductInfo) (section_232_results : Section232Results) :
    Option StackingResult :=
  let origin := product_info.origin_country
  if origin ∈ column_2_countries then
    some { excluded := true, exemption_code := some "9903.01.29",
           reasoning := "EXEMPT: Product from Column 2 rate country (" ++ origin ++ ")",
           final_amount := 0 }
  else if answers.is_humanitarian_donation.getD false then
    some { excluded := true, exemption_code := some "9903.01.30",
           reasoning := "EXEMPT: Humanitarian donation (food, clothing, medicine)",
           final_amount := 0 }
  else if origin ∈ special_calculation_countries then
    match answers.column_1_duty_rate with
    | none =>
      some { excluded := false, exemption_code := none,
             reasoning := "REQUIRES DATA: Product from " ++ origin ++
               " requires Column 1 (MFN) duty rate to calculate adjusted reciprocal tariff. Rule: If MFN ≥15% then reciprocal=0%; if MFN <15% then reciprocal=15%-MFN. Please provide the Column 1 duty rate for this HTS code.",
             final_amount := 0 }
    | some column_1_rate =>
      if column_1_rate ≥ 15 then
        some { excluded := true, exemption_code := some "N/A",
               reasoning := "EXEMPT: " ++ origin ++ " product with Column 1 (MFN) rate of " ++
                 toString column_1_rate ++ "% (≥15% threshold). No reciprocal tariff applied. Total duty = " ++
                 toString column_1_rate ++ "% (Column 1 only)",
               final_amount := 0 }
      else
        -- `final_amount = product_info['value'] * (non_232_pct / 100.0) * adjusted_reciprocal_rate`
        -- reads `non_232_pct` before assignment: UnboundLocalError.
        none
  else
    let total_232_material_pct := counted_232_pct answers section_232_results
    if total_232_material_pct > 100 then
      some { excluded := false, exemption_code := none,
             reasoning := "ERROR: Total Section 232 material percentages exceed 100%. Total: " ++
               toString total_232_material_pct ++ "%. Please verify composition percentages.",
             final_amount := 0 }
    else
      let non_232_pct := 100 - total_232_material_pct
      if non_232_pct ≤ 0 then
        some { excluded := true, exemption_code := some "9903.01.33",
               reasoning := "EXEMPT: Product is 100% Section 232 materials (exemption 9903.01.33 - metal portion exempt)",
               final_amount := 0 }
      else
        let us_content := answers.us_content_percentage.getD 0
        if us_content > 100 then
          some { excluded := false, exemption_code := none,
                 reasoning := "ERROR: US content percentage (" ++ toString us_content ++
                   "%) cannot exceed 100%. Please verify the US content value.",
                 final_amount := 0 }
        else if us_content > 20 then
          some { excluded := true, exemption_code := some "9903.01.34",
                 reasoning := "EXEMPT: Product has " ++ toString us_content ++ "% U.S. content (>20% threshold)",
                 final_amount := 0 }
        else if answers.is_informational_materials.getD false then
          some { excluded := true, exemption_code := some "9903.01.21",
                 reasoning := "EXEMPT: Product is informational materials (books, films, CDs, artwork)",
                 final_amount := 0 }
        else
          some { excluded := false, exemption_code := none,
                 reasoning := "APPLIES to NON-232 portion only: " ++ toString non_232_pct ++
                   "% of product value (Section 232 materials " ++ toString total_232_material_pct ++
                   "% are mutually exclusive per exemption 9903.01.33)",
                 final_amount := product_info.value * (non_232_pct / 100) * tariff.rate }

/-- One row of the output of `analyze_stacking`: the input tariff's
fields merged (`{**tariff, **analysis}`) with the verdict fields. -/
structure AnalyzedTariff where
  tariff : Tariff
  excluded : Bool
  exemption_code : Option String
  reasoning : String
  final_amount : ℚ
  deriving DecidableEq

/-- Merge a tariff with its per-category verdict. -/
def mergeResult (t : Tariff) (a : StackingResult) : AnalyzedTariff :=
  { tariff := t, excluded := a.excluded, exemption_code := a.exemption_code,
    reasoning := a.reasoning, final_amount := a.final_amount }

/-- Stable insertion of a tariff into an already-sorted list: `t` goes
before the first element whose key is not strictly smaller, so equal
keys preserve the original relative order, matching Python's stable
`sorted`. -/
def insertTariff (t : Tariff) : List Tariff → List Tariff
  | [] => [t]
  | u :: us =>
    if stackingOrderKey u.category < stackingOrderKey t.category then
      u :: insertTariff t us
    else
      t :: u :: us

/-- `sorted(tariffs, key=lambda t: STACKING_ORDER.get(t['category'], 999))`:
a stable sort by priority key. -/
def sortTariffs : List Tariff → List Tariff
  | [] => []
  | t :: ts => insertTariff t (sortTariffs ts)

/-- The short-circuit verdict used for every material category once an
HTS-based Section 232 tariff (automotive/buses) has applied. -/
def htsOverrideResult : StackingResult :=
  { excluded := true, exemption_code := some "N/A",
    reasoning := "NOT APPLICABLE: Product already covered under Section 232 Automotive/Buses HTS code classification. Material composition tariffs do not apply when HTS-based 232 tariff applies.",
    final_amount := 0 }

/-- The body of the `for tariff in sorted_tariffs` loop of
`analyze_stacking`: per-category dispatch, returning the verdict and the
updated `hts_based_232_applies` flag and `section_232_results` map.
`none` propagates the `UnboundLocalError` of the reciprocal branch. -/
def analyzeTariff (answers : Answers) (product_info : ProductInfo)
    (hts : Bool) (s232 : Section232Results) (t : Tariff) :
    Option (StackingResult × Bool × Section232Results) :=
  if t.category = "section_232_automotive" then
    let a := apply_section_232_automotive_logic t answers product_info
    some (a, hts || !a.excluded, s232)
  else if t.category = "section_232_buses" then
    let a := apply_section_232_buses_logic t answers product_info
    some (a, hts || !a.excluded, s232)
  else if t.category = "section_232_steel" then
    if hts then some (htsOverrideResult, hts, s232)
    else
      let a := apply_section_232_steel_logic t answers product_info
      some (a, hts, { s232 with steel := some a })
  else if t.category = "section_232_aluminum" then
    if hts then some (htsOverrideResult, hts, s232)
    else
      let a := apply_section_232_aluminum_logic t answers product_info
      some (a, hts, { s232 with aluminum := some a })
  else if t.category = "section_232_copper" then
    if hts then some (htsOverrideResult, hts, s232)
    else
      let a := apply_section_232_copper_logic t answers product_info
      some (a, hts, { s232 with copper := some a })
  else if t.category = "section_232_lumber" then
    if hts then some (htsOverrideResult, hts, s232)
    else
      let a := apply_section_232_lumber_logic t answers product_info
      some (a, hts, { s232 with lumber := some a })
  else if t.category = "section_301" then
    some (apply_section_301_logic t answers product_info, hts, s232)
  else if t.category = "ieepa_reciprocal" then
    (apply_ieepa_reciprocal_logic t answers product_info s232).map (fun a => (a, hts, s232))
  else if t.category = "ieepa_fentanyl" then
    some (apply_ieepa_fentanyl_logic t answers product_info, hts, s232)
  else
    some ({ excluded := false, exemption_code := none,
            reasoning := "APPLIES: " ++ t.name ++ " (category: " ++ t.category ++ ")",
            final_amount := t.amount }, hts, s232)

/-- The loop of `analyze_stacking` over the sorted tariff list,
threading the flag and the Section-232 results map. -/
def analyzeLoop (answers : Answers) (product_info : ProductInfo) :
    Bool → Section232Results → List Tariff → Option (List AnalyzedTariff)
  | _, _, [] => some []
  | hts, s232, t :: ts =>
    match analyzeTariff answers product_info hts s232 t with
    | none => none
    | some (a, hts2, s2322) =>
      (analyzeLoop answers product_info hts2 s2322 ts).map
        (fun rs => mergeResult t a :: rs)

/-- `analyze_stacking` from `stacking_logic.py`: sort by the CBP
priority table, then evaluate each category in order.  `none` embeds an
uncaught exception escaping the call. -/
def analyze_stacking (tariffs : List Tariff) (answers : Answers)
    (product_info : ProductInfo) : Option (List AnalyzedTariff) :=
  analyzeLoop answers product_info false {} (sortTariffs tariffs)

/-- The aggregate result assembled by `analyze_stacking_endpoint` in
`app.py`: `total_before = sum(t['amount'])` over the input tariffs,
`total_after = sum(t['final_amount'])` over ALL analyzed entries,
`savings = total_before - total_after`. -/
structure EndpointResult where
  stackingOrder : List AnalyzedTariff
  totalBefore : ℚ
  totalAfter : ℚ
  savings : ℚ
  deriving DecidableEq

/-- The aggregate computation of `analyze_stacking_endpoint` (`app.py`),
after answer parsing: run `analyze_stacking` and total the amounts. -/
def analyze_stacking_endpoint (found_tariffs : List Tariff) (answers : Answers)
    (product_info : ProductInfo) : Option EndpointResult :=
  (analyze_stacking found_tariffs answers product_info).map (fun analyzed =>
    let total_before := (found_tariffs.map Tariff.amount).sum
    let total_after := (analyzed.map AnalyzedTariff.final_amount).sum
    { stackingOrder := analyzed, totalBefore := total_before,
      totalAfter := total_after, savings := total_before - total_after })

/-- Char-list test: `pre` begins `l`. -/
def startsWithAux : List Char → List Char → Bool
  | [], _ => true
  | _ :: _, [] => false
  | c :: cs, d :: ds => c == d && startsWithAux cs ds

/-- String `p` begins string `s` (Python `s.startswith(p)`, and the
constant-prefix checks of the verification below). -/
def strStartsWith (p s : String) : Bool :=
  startsWithAux p.data s.data

/-- Char-list test: `sub` occurs somewhere in `l`. -/
def hasSubstrAux (sub : List Char) : List Char → Bool
  | [] => sub.isEmpty
  | c :: cs => startsWithAux sub (c :: cs) || hasSubstrAux sub cs

/-- Python substring test `sub in s`. -/
def containsSub (s sub : String) : Bool :=
  hasSubstrAux sub.data s.data

/-- ASCII lower-casing of one character (Python `.lower()` on the ASCII
inputs this engine handles). -/
def charLower (c : Char) : Char :=
  if 'A' ≤ c ∧ c ≤ 'Z' then Char.ofNat (c.toNat + 32) else c

/-- Python `s.lower()`. -/
def strToLower (s : String) : String :=
  ⟨s.data.map charLower⟩

/-- Python `s[:n]` (character slice). -/
def strTake (s : String) (n : Nat) : String :=
  ⟨s.data.take n⟩

/-- Python `s.strip()`. -/
def strTrim (s : String) : String :=
  ⟨((s.data.dropWhile Char.isWhitespace).reverse.dropWhile Char.isWhitespace).reverse⟩

/-- Python `s.replace('%', '')`. -/
def stripPercent (s : String) : String :=
  ⟨s.data.filter (fun c => c ≠ '%')⟩

/-- The numeric value of a nonempty all-digit char list, else `none`. -/
def digitsVal (l : List Char) : Option Nat :=
  if l ≠ [] ∧ l.all Char.isDigit then
    some (l.foldl (fun n c => n * 10 + (c.toNat - 48)) 0)
  else none

/-- Split a char list at the dots (Python `s.split('.')`). -/
def splitOnDot : List Char → List (List Char)
  | [] => [[]]
  | c :: cs =>
    if c = '.' then [] :: splitOnDot cs
    else
      match splitOnDot cs with
      | h :: t => (c :: h) :: t
      | [] => [[c]]

/-- A raw (unparsed) answer value in the catalog path: the Python dict
values are strings or numbers. -/
inductive RawAnswer where
  | s (v : String)
  | n (v : ℚ)
  deriving DecidableEq

/-- Python `str(answer)`. -/
def RawAnswer.toStr : RawAnswer → String
  | .s v => v
  | .n v => toString v

/-- Python `isinstance(answer, (int, float))`. -/
def RawAnswer.isNumeric : RawAnswer → Bool
  | .s _ => false
  | .n _ => true

/-- Python `float(...)` on a simple unsigned decimal string, `none` for
anything unparsable (the `except: pass` path). -/
def parseDecimal (s : String) : Option ℚ :=
  match splitOnDot s.data with
  | [a] => (digitsVal a).map (fun n => (n : ℚ))
  | [a, b] =>
    match digitsVal a, digitsVal b with
    | some x, some y => some ((x : ℚ) + (y : ℚ) / ((10 : ℚ) ^ b.length))
    | _, _ => none
  | _ => none

/-- The `conditions` dict of a catalog exemption rule.  Only the four
condition kinds read by `check_exemption_applies` influence behavior;
the remaining keys are carried as inert flags. -/
structure ExemptionConditions where
  origin_countries : Option (List String) := none
  requires_usmca : Bool := false
  melted_and_poured_in_us : Bool := false
  us_content_percentage : Option ℚ := none
  us_origin : Bool := false
  smelted_and_cast_in_us : Bool := false
  requires_exclusion_approval : Bool := false
  requires_ior_match : Bool := false
  quantity_limited : Bool := false
  requires_product_match : Bool := false
  must_match_detailed_description : Bool := false
  manufacturing_equipment : Bool := false
  section_232_applies : Bool := false
  informational_materials : Bool := false
  deriving DecidableEq

/-- A catalog exemption rule (`exemption_database.py` dict). -/
structure Exemption where
  code : String
  name : String
  description : String
  applies_to_hs_codes : List String
  effect : String
  conditions : ExemptionConditions
  deriving DecidableEq

/-- `SECTION_232_STEEL_EXEMPTIONS`. -/
def SECTION_232_STEEL_EXEMPTIONS : List Exemption :=
  [{ code := "9903.01.26", name := "USMCA Exemption: Canada Origin",
     description := "Goods that originate in Canada under USMCA qualify for exemption from Section 232 steel duties. Note: All General Approved Exclusions (GAEs) were revoked effective March 12, 2025.",
     applies_to_hs_codes := ["99038104", "99038106", "99038111", "99038112", "99038119", "99038186", "99038187"],
     effect := "EXEMPT",
     conditions := { origin_countries := some ["CA"], requires_usmca := true } },
   { code := "9903.01.27", name := "USMCA Exemption: Mexico Origin",
     description := "Goods that originate in Mexico under USMCA qualify for exemption from Section 232 steel duties. Note: All General Approved Exclusions (GAEs) were revoked effective March 12, 2025.",
     applies_to_hs_codes := ["99038104", "99038106", "99038111", "99038112", "99038119", "99038186", "99038187"],
     effect := "EXEMPT",
     conditions := { origin_countries := some ["MX"], requires_usmca := true } },
   { code := "9903.81.92", name := "U.S.-Origin Steel Exemption",
     description := "Derivative steel articles made from steel melted and poured in the United States qualify for 0% tariff rate.",
     applies_to_hs_codes := ["99038106", "99038111", "99038112", "99038119", "99038186", "99038187"],
     effect := "EXEMPT",
     conditions := { us_origin := true, melted_and_poured_in_us := true } },
   { code := "PRODUCT_EXCLUSION_STEEL", name := "Commerce Product-Specific Exclusion",
     description := "Time-limited product exclusion granted by U.S. Department of Commerce (valid 1 year or until quantity exhausted). NOTE: Commerce is no longer processing new exclusion requests as of Feb 10, 2025.",
     applies_to_hs_codes := ["99038104", "99038106", "99038111", "99038112", "99038119", "99038186", "99038187"],
     effect := "EXEMPT",
     conditions := { requires_exclusion_approval := true, requires_ior_match := true, quantity_limited := true } }]

/-- `SECTION_232_ALUMINUM_EXEMPTIONS`.  Its US-origin entry carries the
code `US_ORIGIN_ALUMINUM`, while the full evaluator reports
`US_ORIGIN` for the same exemption. -/
def SECTION_232_ALUMINUM_EXEMPTIONS : List Exemption :=
  [{ code := "9903.01.26", name := "USMCA Exemption: Canada Origin",
     description := "Goods that originate in Canada under USMCA qualify for exemption from Section 232 aluminum duties. Note: All General Approved Exclusions (GAEs) were revoked effective March 12, 2025.",
     applies_to_hs_codes := ["99038502", "99038504", "99038507", "99038508", "99038509"],
     effect := "EXEMPT",
     conditions := { origin_countries := some ["CA"], requires_usmca := true } },
   { code := "9903.01.27", name := "USMCA Exemption: Mexico Origin",
     description := "Goods that originate in Mexico under USMCA qualify for exemption from Section 232 aluminum duties. Note: All General Approved Exclusions (GAEs) were revoked effective March 12, 2025.",
     applies_to_hs_codes := ["99038502", "99038504", "99038507", "99038508", "99038509"],
     effect := "EXEMPT",
     conditions := { origin_countries := some ["MX"], requires_usmca := true } },
   { code := "US_ORIGIN_ALUMINUM", name := "U.S.-Origin Aluminum Exemption",
     description := "Derivative aluminum articles made exclusively from aluminum smelted and cast in the United States qualify for exemption from Section 232 duties.",
     applies_to_hs_codes := ["99038504", "99038507", "99038508", "99038509"],
     effect := "EXEMPT",
     conditions := { us_origin := true, smelted_and_cast_in_us := true } },
   { code := "PRODUCT_EXCLUSION_AL", name := "Commerce Product-Specific Exclusion",
     description := "Time-limited product exclusion granted by U.S. Department of Commerce (valid 1 year or until quantity exhausted). NOTE: Commerce is no longer processing new exclusion requests as of Feb 10, 2025.",
     applies_to_hs_codes := ["99038502", "99038504", "99038507", "99038508", "99038509"],
     effect := "EXEMPT",
     conditions := { requires_exclusion_approval := true, requires_ior_match := true, quantity_limited := true } }]

/-- `SECTION_301_EXEMPTIONS`. -/
def SECTION_301_EXEMPTIONS : List Exemption :=
  [{ code := "9903.88.69", name := "USTR Product-Specific Exclusion (164 products)",
     description := "164 product-specific exclusions covering certain industrial equipment, EVs, batteries, critical minerals, semiconductors and solar cells. Extended through November 10, 2026.",
     applies_to_hs_codes := ["99038803", "99038804", "99038809", "99038815"],
     effect := "EXEMPT",
     conditions := { requires_product_match := true, must_match_detailed_description := true,
                     origin_countries := some ["CN", "HK", "MO"] } },
   { code := "9903.88.70", name := "USTR Manufacturing Equipment Exclusion (14 products)",
     description := "14 exclusions for manufacturing equipment related to solar manufacturing and other technologies. Extended through November 10, 2026.",
     applies_to_hs_codes := ["99038803", "99038804", "99038809", "99038815"],
     effect := "EXEMPT",
     conditions := { requires_product_match := true, must_match_detailed_description := true,
                     manufacturing_equipment := true, origin_countries := some ["CN", "HK", "MO"] } },
   { code := "SECTION_321_ELIMINATED", name := "De Minimis Exemption (Section 321) - ELIMINATED for CN/HK/MO",
     description := "IMPORTANT: As of September 2024, Section 321 de minimis exemption NO LONGER APPLIES to goods from China, Hong Kong, or Macau. These goods are now subject to Section 301 duties regardless of shipment value.",
     applies_to_hs_codes := [],
     effect := "NO_EXEMPTION",
     conditions := {} }]

/-- `IEEPA_EXEMPTIONS`. -/
def IEEPA_EXEMPTIONS : List Exemption :=
  [{ code := "9903.01.34", name := "U.S. Content Exemption (>20%)",
     description := "Products with greater than 20% U.S. content by value are exempt from IEEPA Reciprocal Tariff.",
     applies_to_hs_codes := ["99030125"],
     effect := "EXEMPT",
     conditions := { us_content_percentage := some 20, origin_countries := some ["CN", "HK", "MO"] } },
   { code := "9903.01.21", name := "Informational Materials Exemption",
     description := "Informational materials (books, films, CDs, posters, artwork) are exempt from IEEPA tariffs.",
     applies_to_hs_codes := ["99030125", "99030136"],
     effect := "EXEMPT",
     conditions := { informational_materials := true, origin_countries := some ["CN", "HK", "MO"] } },
   { code := "9903.01.33", name := "Section 232 Exempts IEEPA Reciprocal",
     description := "If Section 232 tariffs apply, IEEPA Reciprocal (9903.01.25) is automatically exempt.",
     applies_to_hs_codes := ["99030125"],
     effect := "EXEMPT",
     conditions := { section_232_applies := true } }]

/-- `get_exemptions_for_category` from `exemption_database.py`. -/
def get_exemptions_for_category (category : String) : List Exemption :=
  let c := strToLower category
  if containsSub c "section_232_steel" || containsSub c "steel" then
    SECTION_232_STEEL_EXEMPTIONS
  else if containsSub c "section_232_aluminum" || containsSub c "aluminum" then
    SECTION_232_ALUMINUM_EXEMPTIONS
  else if containsSub c "section_301" then
    SECTION_301_EXEMPTIONS
  else if containsSub c "ieepa" then
    IEEPA_EXEMPTIONS
  else
    []

/-- Product info as the catalog path receives it (`hsCode`, `origin`,
`value`). -/
structure CatalogProductInfo where
  hsCode : String
  origin : String
  value : ℚ
  deriving DecidableEq

/-- `check_exemption_applies` from `exemption_database.py`: the pure
condition evaluator, with its string-heuristic answer scans. -/
def check_exemption_applies (exemption : Exemption)
    (product_info : CatalogProductInfo) (answers : List RawAnswer) : Bool :=
  let conditions := exemption.conditions
  let origin := product_info.origin
  if conditions.origin_countries.isSome &&
      !((conditions.origin_countries.getD []).contains origin) then
    false
  else if conditions.requires_usmca &&
      !(answers.any (fun a =>
        containsSub (strToLower a.toStr) "usmca" && containsSub (strToLower a.toStr) "yes")) then
    false
  else if conditions.melted_and_poured_in_us &&
      !(answers.any (fun a =>
        (containsSub (strToLower a.toStr) "melted" || containsSub (strToLower a.toStr) "poured" ||
         containsSub (strToLower a.toStr) "origin") &&
        (containsSub (strToLower a.toStr) "us" || containsSub (strToLower a.toStr) "united states"))) then
    false
  else
    match conditions.us_content_percentage with
    | some required_percent =>
      answers.any (fun a =>
        match a with
        | .n v => v > required_percent
        | .s v =>
          if containsSub v "%" then
            match parseDecimal (strTrim (stripPercent v)) with
            | some p => p > required_percent
            | none => false
          else false)
    | none => true

/-- `CBP_STACKING_RULES['order']`. -/
def CBP_STACKING_RULES_order : List String :=
  ["section_232_steel", "section_232_aluminum", "section_232_automotive",
   "section_301", "ieepa_reciprocal", "ieepa_fentanyl"]

/-- The sort key of the catalog path: index into
`CBP_STACKING_RULES['order']`, else 999. -/
def cbpOrderKey (category : String) : Nat :=
  match CBP_STACKING_RULES_order.findIdx? (fun x => x == category) with
  | some i => i
  | none => 999

/-- Stable insertion by `cbpOrderKey` (Python stable `sorted`). -/
def insertTariffCbp (t : Tariff) : List Tariff → List Tariff
  | [] => [t]
  | u :: us =>
    if cbpOrderKey u.category < cbpOrderKey t.category then
      u :: insertTariffCbp t us
    else
      t :: u :: us

/-- Stable sort by `cbpOrderKey`. -/
def sortTariffsCbp : List Tariff → List Tariff
  | [] => []
  | t :: ts => insertTariffCbp t (sortTariffsCbp ts)

/-- One entry of the catalog path's `stacking_order` output. -/
structure CatalogEntry where
  code : String
  name : String
  rate : ℚ
  amount : ℚ
  category : String
  excluded : Bool
  exemption_code : Option String
  reasoning : String
  deriving DecidableEq

/-- The catalog path's aggregate output dict. -/
structure CatalogOutcome where
  stackingOrder : List CatalogEntry
  totalBefore : ℚ
  totalAfter : ℚ
  savings : ℚ
  cbpGuidance : String
  deriving DecidableEq

/-- The verdict triple (excluded, exemption_code, reasoning) computed
for one tariff inside `analyze_stacking_with_exemptions`. -/
def catalogVerdict (product_info : CatalogProductInfo) (answers : List RawAnswer)
    (section_232_applies : Bool) (t : Tariff) : Bool × Option String × String :=
  if containsSub (strToLower t.category) "ieepa_reciprocal" && section_232_applies then
    (true, some "9903.01.33",
     "EXEMPT: Section 232 tariffs apply, which automatically exempts IEEPA Reciprocal (9903.01.33)")
  else
    match (get_exemptions_for_category t.category).find?
        (fun e => check_exemption_applies e product_info answers) with
    | some e => (true, some e.code, "EXEMPT: " ++ e.name ++ " - " ++ strTake e.description 100)
    | none => (false, none, "Applies: " ++ t.name)

/-- `analyze_stacking_with_exemptions` from `exemption_database.py`:
the simplified single-pass catalog path.  (`questions` is accepted and
ignored, as in the source.) -/
def analyze_stacking_with_exemptions (product_info : CatalogProductInfo)
    (found_tariffs : List Tariff) (_questions : List String)
    (answers : List RawAnswer) : CatalogOutcome :=
  let total_before := (found_tariffs.map Tariff.amount).sum
  let section_232_applies := found_tariffs.any (fun t => containsSub (strToLower t.category) "section_232")
  let stacking_order := (sortTariffsCbp found_tariffs).map (fun t =>
    let v := catalogVerdict product_info answers section_232_applies t
    { code := t.code, name := t.name, rate := t.rate, amount := t.amount,
      category := t.category, excluded := v.1, exemption_code := v.2.1,
      reasoning := v.2.2 : CatalogEntry })
  let total_after := ((stacking_order.filter (fun e => !e.excluded)).map CatalogEntry.amount).sum
  let savings := total_before - total_after
  let cbp_guidance :=
    "Stacking Order: " ++
    String.intercalate " → " (CBP_STACKING_RULES_order.take found_tariffs.length) ++ ". " ++
    "Applied " ++ toString (stacking_order.filter (fun e => e.excluded)).length ++ " exemptions. " ++
    (if section_232_applies then "Section 232 exempts IEEPA Reciprocal per 9903.01.33. " else "")
  { stackingOrder := stacking_order, totalBefore := total_before,
    totalAfter := total_after, savings := savings, cbpGuidance := cbp_guidance }

/-! ## Concrete inputs used by witnesses and counterexamples -/

/-- An IEEPA-reciprocal tariff: rate 10%, nominal amount 100 on value 1000. -/
def recipTariffEx : Tariff := ⟨"9903.01.25", "IEEPA Reciprocal", 0.1, 100, "ieepa_reciprocal"⟩

/-- An IEEPA-fentanyl tariff: rate 20%, nominal amount 200 on value 1000. -/
def fentTariffEx : Tariff := ⟨"9903.01.24", "IEEPA Fentanyl", 0.2, 200, "ieepa_fentanyl"⟩

/-- A Section 232 steel tariff: rate 50%, nominal amount 500 on value 1000. -/
def steelTariffEx : Tariff := ⟨"9903.81.90", "Section 232 Steel", 0.5, 500, "section_232_steel"⟩

/-- A Section 232 aluminum tariff: rate 25%, nominal amount 250 on value 1000. -/
def alumTariffEx : Tariff := ⟨"9903.85.02", "Section 232 Aluminum", 0.25, 250, "section_232_aluminum"⟩

/-- A Section 232 copper tariff: rate 50%, nominal amount 500 on value 1000. -/
def copperTariffEx : Tariff := ⟨"9903.78.01", "Section 232 Copper", 0.5, 500, "section_232_copper"⟩

/-- A Section 232 lumber tariff: rate 10%, nominal amount 100 on value 1000. -/
def lumberTariffEx : Tariff := ⟨"9903.76.01", "Section 232 Lumber", 0.1, 100, "section_232_lumber"⟩

/-- A Section 232 automotive tariff: rate 25%, nominal amount 250 on value 1000. -/
def autoTariffEx : Tariff := ⟨"9903.94.01", "Section 232 Automotive", 0.25, 250, "section_232_automotive"⟩

/-- Two distinct Section 301 tariffs of the same category. -/
def tariff301A : Tariff := ⟨"9903.88.03", "Section 301 List A", 0.25, 250, "section_301"⟩

/-- Second Section 301 tariff, differing from `tariff301A` only in name. -/
def tariff301B : Tariff := ⟨"9903.88.03", "Section 301 List B", 0.25, 250, "section_301"⟩

/-- Shipment from Canada, value 1000. -/
def productCA : ProductInfo := ⟨"CA", "8703230000", 1000⟩

/-- Shipment from Germany (EU member), value 1000. -/
def productDE : ProductInfo := ⟨"DE", "8703230000", 1000⟩

/-- Shipment from the United Kingdom (outside every special set), value 1000. -/
def productGB : ProductInfo := ⟨"GB", "7326908688", 1000⟩

/-- Shipment from China, value 1000. -/
def productCN : ProductInfo := ⟨"CN", "7326908688", 1000⟩

/-- Answers: USMCA-qualified yes. -/
def ansUsmcaYes : Answers := { usmca_qualified := some true }

/-- Answers: Column-1 (MFN) duty rate 10% (strictly below the 15% threshold). -/
def ansColumn1DE : Answers := { column_1_duty_rate := some 10 }

/-- Answers: steel 60% and aluminum 60% declared (sum 120 > 100). -/
def ansBigPct : Answers :=
  { steel_percentage := some 60, aluminum_percentage := some 60 }

/-- Answers: steel 50%, USMCA qualification answered No. -/
def ansSteelNoUsmca : Answers :=
  { steel_percentage := some 50, usmca_qualified := some false }

/-- Answers: copper 50%, USMCA qualification answered Yes. -/
def ansCopperUsmca : Answers :=
  { copper_percentage := some 50, usmca_qualified := some true }

/-- Answers: aluminum 50%, aluminum origin US, smelted and cast in US. -/
def ansAlumUS : Answers :=
  { aluminum_percentage := some 50, aluminum_origin_country := some "US",
    aluminum_smelted_cast_us := some true }

/-- Catalog-path product info: origin Germany, value 1000. -/
def catalogProductDE : CatalogProductInfo := ⟨"8703230000", "DE", 1000⟩

/-- Catalog-path product info: origin Canada, value 1000. -/
def catalogProductCA : CatalogProductInfo := ⟨"8703230000", "CA", 1000⟩

/-- Catalog-path product info: origin Mexico, value 1000. -/
def catalogProductMX : CatalogProductInfo := ⟨"8703230000", "MX", 1000⟩

/-- Catalog-path product info: origin China, value 1000. -/
def catalogProductCN : CatalogProductInfo := ⟨"7326908688", "CN", 1000⟩

/-- Catalog-path raw answers corresponding to `ansAlumUS`. -/
def rawAnswersAlumUS : List RawAnswer := [.s "50", .s "US", .s "Yes"]

/-- Catalog-path raw answer signalling USMCA qualification. -/
def rawAnswersUsmca : List RawAnswer := [.s "USMCA: Yes"]

/-- Catalog-path raw answer signalling US melt/pour of the steel. -/
def rawAnswersMelted : List RawAnswer := [.s "melted and poured in US: Yes"]

/-- Catalog-path raw answer: US content 50 (numeric). -/
def rawAnswersUsContent : List RawAnswer := [.n 50]

/-- Answers: steel 50%, USMCA qualification answered Yes. -/
def ansSteelUsmca : Answers :=
  { steel_percentage := some 50, usmca_qualified := some true }

/-- Answers: steel 50%, steel origin US, melted and poured in US. -/
def ansSteelUS : Answers :=
  { steel_percentage := some 50, steel_origin_country := some "US",
    steel_melted_poured_us := some true }

/-- Answers: steel 50% only. -/
def ansSteelOnly : Answers := { steel_percentage := some 50 }

/-- Answers: lumber 50% only. -/
def ansLumberOnly : Answers := { lumber_percentage := some 50 }

/-- Answers: US content 50%. -/
def ansUsContent : Answers := { us_content_percentage := some 50 }

/-- Shipment from Mexico, value 1000. -/
def productMX : ProductInfo := ⟨"MX", "7326908688", 1000⟩

/-- A Section-232 verdict that applied (not excluded), for seeding a
`Section232Results` map. -/
def appliedResultEx : StackingResult :=
  { excluded := false, exemption_code := none, reasoning := "APPLIES", final_amount := 300 }

/-- A Section-232 results map in which steel and aluminum both applied. -/
def s232AppliedEx : Section232Results :=
  { steel := some appliedResultEx, aluminum := some appliedResultEx }

/-- A character-list prefix survives appending on the right. -/
theorem startsWithAux_append (p s t : List Char) (h : startsWithAux p s = true) :
    startsWithAux p (s ++ t) = true := by
  induction p generalizing s with
  | nil => simp [startsWithAux]
  | cons c cs ih =>
    cases s with
    | nil => simp [startsWithAux] at h
    | cons d ds =>
      simp only [startsWithAux, Bool.and_eq_true] at h
      simp only [List.cons_append, startsWithAux, Bool.and_eq_true]
      exact ⟨h.1, ih ds h.2⟩

/-- A string prefix survives appending on the right. -/
theorem strStartsWith_append (p s t : String) (h : strStartsWith p s = true) :
    strStartsWith p (s ++ t) = true := by
  obtain ⟨sd⟩ := s
  obtain ⟨td⟩ := t
  exact startsWithAux_append _ _ _ h

/-! ## Claims -/

/-- C1: the stacking evaluation is claimed total, but for an
IEEPA-reciprocal tariff with origin in the EU/JP/KR set and a Column-1
rate answer strictly below 15, `apply_ieepa_reciprocal_logic` reads
`non_232_pct` before its assignment and raises `UnboundLocalError`
(embedded as `none`): the evaluator fails instead of returning the
adjusted-rate verdict. -/
theorem c1_reciprocal_eu_low_mfn_raises :
    "DE" ∈ special_calculation_countries ∧
    ansColumn1DE.column_1_duty_rate = some 10 ∧ ((10 : ℚ) < 15) ∧
    analyze_stacking [recipTariffEx] ansColumn1DE productDE = none :=
  ⟨by decide, rfl, by norm_num, by decide⟩

/-- C4 counterexample: declared steel 60% + aluminum 60% = 120% > 100,
yet with no Section-232 tariffs in the input the IEEPA-reciprocal
verdict is a plain "applies" with nonzero final amount and no ERROR
flag — not the claimed validation-error state. -/
theorem c4_counterexample_sum_not_flagged :
    ansBigPct.steel_percentage.getD 0 + ansBigPct.aluminum_percentage.getD 0 +
      ansBigPct.copper_percentage.getD 0 + ansBigPct.lumber_percentage.getD 0 = 120 ∧
    (analyze_stacking [recipTariffEx] ansBigPct productGB).map
      (fun rs => rs.map (fun r => (r.excluded, r.final_amount, strStartsWith "ERROR" r.reasoning))) =
      some [(false, 100, false)] := by
  constructor
  · norm_num [ansBigPct]
  · norm_num +decide [analyze_stacking, analyzeLoop, analyzeTariff, sortTariffs, insertTariff,
      stackingOrderKey, STACKING_ORDER, apply_ieepa_reciprocal_logic, counted_232_pct,
      mergeResult, recipTariffEx, ansBigPct, productGB, Option.map,
      column_2_countries, special_calculation_countries, eu_countries,
      strStartsWith, startsWithAux]

/-- C4 amended: the inconsistency check sums only material percentages
whose Section-232 verdict is present and not excluded.  When the
reciprocal evaluation reaches that check (origin outside the Column-2
and EU/JP/KR sets, not a humanitarian donation) and that sum exceeds
100, the verdict is the validation-error state: not excluded, final
amount 0, reasoning flagged with the ERROR prefix, returned normally
(no raise). -/
theorem c4_validation_error_verdict (t : Tariff) (a : Answers) (p : ProductInfo)
    (s : Section232Results)
    (h1 : p.origin_country ∉ column_2_countries)
    (h2 : a.is_humanitarian_donation.getD false = false)
    (h3 : p.origin_country ∉ special_calculation_countries)
    (h4 : counted_232_pct a s > 100) :
    ∃ r, apply_ieepa_reciprocal_logic t a p s = some r ∧
      r.excluded = false ∧ r.final_amount = 0 ∧ strStartsWith "ERROR" r.reasoning = true := by
  unfold apply_ieepa_reciprocal_logic
  rw [if_neg h1, if_neg (by simp [h2]), if_neg h3, if_pos h4]
  exact ⟨_, rfl, rfl, rfl, strStartsWith_append _ _ _ (strStartsWith_append _ _ _ (by decide))⟩

/-- C4 witness: a concrete run of the amended statement, with steel and
aluminum Section-232 verdicts that applied and declared percentages
summing to 120. -/
theorem c4_validation_error_witness :
    ∃ r, apply_ieepa_reciprocal_logic recipTariffEx ansBigPct productGB s232AppliedEx = some r ∧
      r.excluded = false ∧ r.final_amount = 0 ∧ strStartsWith "ERROR" r.reasoning = true :=
  c4_validation_error_verdict recipTariffEx ansBigPct productGB s232AppliedEx
    (by decide) rfl (by decide)
    (by norm_num [counted_232_pct, ansBigPct, s232AppliedEx, appliedResultEx])

/-- C5 counterexample: steel from CA with USMCA answered No and 50%
steel keeps the full nominal amount 500 rather than the apportioned
`rate × (pct/100) × value = 250` the claim states. -/
theorem c5_counterexample_ca_full_amount :
    (apply_section_232_steel_logic steelTariffEx ansSteelNoUsmca productCA).excluded = false ∧
    (apply_section_232_steel_logic steelTariffEx ansSteelNoUsmca productCA).final_amount = 500 ∧
    steelTariffEx.rate * (ansSteelNoUsmca.steel_percentage.getD 0 / 100) * productCA.value = 250 ∧
    (500 : ℚ) ≠ 250 := by
  refine ⟨by decide, ?_, ?_, by norm_num⟩ <;>
    norm_num +decide [apply_section_232_steel_logic, steelTariffEx, ansSteelNoUsmca, productCA]

/-- C5 amended: with a non-zero declared percentage and no exemption,
steel and aluminum apportion `rate × (pct/100) × value` only when the
origin is outside CA/MX; a CA/MX shipment whose USMCA answer is false
instead keeps the full nominal tariff amount. -/
theorem c5_steel_aluminum_apportionment (t : Tariff) (a : Answers) (p : ProductInfo) :
    (a.steel_percentage.getD 0 ≠ 0 →
      ¬(p.origin_country = "CA" ∨ p.origin_country = "MX") →
      ¬(a.steel_origin_country.getD "" = "US" ∧ a.steel_melted_poured_us.getD false = true) →
      (apply_section_232_steel_logic t a p).excluded = false ∧
      (apply_section_232_steel_logic t a p).final_amount =
        p.value * (a.steel_percentage.getD 0 / 100) * t.rate) ∧
    (a.steel_percentage.getD 0 ≠ 0 →
      (p.origin_country = "CA" ∨ p.origin_country = "MX") →
      a.usmca_qualified.getD false = false →
      (apply_section_232_steel_logic t a p).excluded = false ∧
      (apply_section_232_steel_logic t a p).final_amount = t.amount) ∧
    (a.aluminum_percentage.getD 0 ≠ 0 →
      ¬(p.origin_country = "CA" ∨ p.origin_country = "MX") →
      ¬(a.aluminum_origin_country.getD "" = "US" ∧ a.aluminum_smelted_cast_us.getD false = true) →
      (apply_section_232_aluminum_logic t a p).excluded = false ∧
      (apply_section_232_aluminum_logic t a p).final_amount =
        p.value * (a.aluminum_percentage.getD 0 / 100) * t.rate) ∧
    (a.aluminum_percentage.getD 0 ≠ 0 →
      (p.origin_country = "CA" ∨ p.origin_country = "MX") →
      a.usmca_qualified.getD false = false →
      (apply_section_232_aluminum_logic t a p).excluded = false ∧
      (apply_section_232_aluminum_logic t a p).final_amount = t.amount) := by
  refine ⟨?_, ?_, ?_, ?_⟩
  · intro h1 h2 h3
    by_cases hus : a.steel_origin_country.getD "" = "US"
    · have hm : a.steel_melted_poured_us.getD false = false := by
        cases hb : a.steel_melted_poured_us.getD false
        · rfl
        · exact absurd ⟨hus, hb⟩ h3
      simp [apply_section_232_steel_logic, h1, h2, hus, hm]
    · simp [apply_section_232_steel_logic, h1, h2, hus]
  · intro h1 h2 h3
    simp [apply_section_232_steel_logic, h1, h2, h3]
  · intro h1 h2 h3
    by_cases hus : a.aluminum_origin_country.getD "" = "US"
    · have hm : a.aluminum_smelted_cast_us.getD false = false := by
        cases hb : a.aluminum_smelted_cast_us.getD false
        · rfl
        · exact absurd ⟨hus, hb⟩ h3
      simp [apply_section_232_aluminum_logic, h1, h2, hus, hm]
    · simp [apply_section_232_aluminum_logic, h1, h2, hus]
  · intro h1 h2 h3
    simp [apply_section_232_aluminum_logic, h1, h2, h3]

/-- C5 witness: GB-origin steel, 50% declared, no exemption path: the
apportioned amount applies. -/
theorem c5_apportionment_witness :
    (apply_section_232_steel_logic steelTariffEx ansSteelOnly productGB).excluded = false ∧
    (apply_section_232_steel_logic steelTariffEx ansSteelOnly productGB).final_amount =
      productGB.value * (ansSteelOnly.steel_percentage.getD 0 / 100) * steelTariffEx.rate :=
  (c5_steel_aluminum_apportionment steelTariffEx ansSteelOnly productGB).1
    (by decide) (by decide) (by decide)

/-- C6 counterexample: a copper tariff from CA with USMCA answered Yes
and 50% copper is fully exempted with the Canada USMCA code — a USMCA
exemption path the claim says copper does not have. -/
theorem c6_counterexample_copper_usmca :
    (apply_section_232_copper_logic copperTariffEx ansCopperUsmca productCA).excluded = true ∧
    (apply_section_232_copper_logic copperTariffEx ansCopperUsmca productCA).final_amount = 0 ∧
    (apply_section_232_copper_logic copperTariffEx ansCopperUsmca productCA).exemption_code =
      some "9903.01.26" ∧
    productCA.value * (ansCopperUsmca.copper_percentage.getD 0 / 100) * copperTariffEx.rate ≠ 0 := by
  refine ⟨by decide, by decide, by decide, ?_⟩
  norm_num [productCA, ansCopperUsmca, copperTariffEx]

/-- C6 amended: lumber indeed has no exemption path — a non-zero
declared percentage always yields the apportioned amount, whatever the
origin and answers — but copper does have a USMCA path: origin CA/MX
with USMCA answered Yes exempts it in full; only otherwise does copper
apply to its declared percentage. -/
theorem c6_copper_lumber_apportionment (t : Tariff) (a : Answers) (p : ProductInfo) :
    (a.copper_percentage.getD 0 ≠ 0 →
      ((p.origin_country = "CA" ∨ p.origin_country = "MX") → a.usmca_qualified.getD false = true →
        (apply_section_232_copper_logic t a p).excluded = true ∧
        (apply_section_232_copper_logic t a p).final_amount = 0) ∧
      (¬((p.origin_country = "CA" ∨ p.origin_country = "MX") ∧ a.usmca_qualified.getD false = true) →
        (apply_section_232_copper_logic t a p).excluded = false ∧
        (apply_section_232_copper_logic t a p).final_amount =
          p.value * (a.copper_percentage.getD 0 / 100) * t.rate)) ∧
    (a.lumber_percentage.getD 0 ≠ 0 →
      (apply_section_232_lumber_logic t a p).excluded = false ∧
      (apply_section_232_lumber_logic t a p).final_amount =
        p.value * (a.lumber_percentage.getD 0 / 100) * t.rate) := by
  constructor
  · intro h1
    constructor
    · intro h2 h3
      simp [apply_section_232_copper_logic, h1, h2, h3]
    · intro h2
      by_cases hca : p.origin_country = "CA" ∨ p.origin_country = "MX"
      · have hm : a.usmca_qualified.getD false = false := by
          cases hb : a.usmca_qualified.getD false
          · rfl
          · exact absurd ⟨hca, hb⟩ h2
        simp [apply_section_232_copper_logic, h1, hca, hm]
      · simp [apply_section_232_copper_logic, h1, hca]
  · intro h1
    simp [apply_section_232_lumber_logic, h1]

/-- C6 witness: lumber at 50% from CA applies to the declared portion
regardless of USMCA answers. -/
theorem c6_apportionment_witness :
    (apply_section_232_lumber_logic lumberTariffEx ansLumberOnly productCA).excluded = false ∧
    (apply_section_232_lumber_logic lumberTariffEx ansLumberOnly productCA).final_amount =
      productCA.value * (ansLumberOnly.lumber_percentage.getD 0 / 100) * lumberTariffEx.rate :=
  (c6_copper_lumber_apportionment lumberTariffEx ansLumberOnly productCA).2 (by decide)

/-- C7: IEEPA-fentanyl gates on origin ∈ {CN, HK, MO} — outside, it is
not applicable (excluded, amount 0); inside, it applies in full at the
nominal amount for every possible answer set — and the concrete CN
shipment of value 1000 at rate 0.20 pays 200, not excluded. -/
theorem c7_fentanyl_no_exemption (t : Tariff) (a : Answers) (p : ProductInfo) :
    (p.origin_country ∉ (["CN", "HK", "MO"] : List String) →
      (apply_ieepa_fentanyl_logic t a p).excluded = true ∧
      (apply_ieepa_fentanyl_logic t a p).final_amount = 0) ∧
    (p.origin_country ∈ (["CN", "HK", "MO"] : List String) →
      (apply_ieepa_fentanyl_logic t a p).excluded = false ∧
      (apply_ieepa_fentanyl_logic t a p).final_amount = t.amount) ∧
    fentTariffEx.amount = productCN.value * fentTariffEx.rate ∧
    (apply_ieepa_fentanyl_logic fentTariffEx a productCN).final_amount = 200 ∧
    (apply_ieepa_fentanyl_logic fentTariffEx a productCN).excluded = false := by
  refine ⟨?_, ?_, ?_, ?_, ?_⟩
  · intro h
    simp [apply_ieepa_fentanyl_logic, h]
  · intro h
    simp [apply_ieepa_fentanyl_logic, h]
  · norm_num [fentTariffEx, productCN]
  · simp [apply_ieepa_fentanyl_logic, fentTariffEx, productCN]
  · simp [apply_ieepa_fentanyl_logic, productCN]

/-- C7 witness: the CN gate satisfied at a concrete input. -/
theorem c7_fentanyl_witness :
    (apply_ieepa_fentanyl_logic fentTariffEx {} productCN).excluded = false ∧
    (apply_ieepa_fentanyl_logic fentTariffEx {} productCN).final_amount = fentTariffEx.amount :=
  (c7_fentanyl_no_exemption fentTariffEx {} productCN).2.1 (by decide)

/-- C10 counterexample: on a US-origin-aluminum shipment both paths mark
the aluminum tariff exempt, but the full evaluator reports the code
`US_ORIGIN` while the catalog path reports `US_ORIGIN_ALUMINUM`. -/
theorem c10_counterexample_aluminum_code :
    (apply_section_232_aluminum_logic alumTariffEx ansAlumUS productDE).excluded = true ∧
    (apply_section_232_aluminum_logic alumTariffEx ansAlumUS productDE).exemption_code =
      some "US_ORIGIN" ∧
    ((analyze_stacking_with_exemptions catalogProductDE [alumTariffEx] [] rawAnswersAlumUS).stackingOrder.map
      (fun e => (e.excluded, e.exemption_code))) = [(true, some "US_ORIGIN_ALUMINUM")] ∧
    (some "US_ORIGIN" : Option String) ≠ some "US_ORIGIN_ALUMINUM" := by
  refine ⟨by decide, by decide, by decide, by decide⟩

/-- C10 amended: the two paths agree on the USMCA codes (9903.01.26 for
CA, 9903.01.27 for MX), on the steel US-origin code 9903.81.92 and on
the US-content threshold code 9903.01.34, but not on the aluminum
US-origin code: the evaluator reports `US_ORIGIN` where the catalog's
entry is `US_ORIGIN_ALUMINUM`. -/
theorem c10_exemption_code_agreement :
    ((analyze_stacking_with_exemptions catalogProductCA [steelTariffEx] [] rawAnswersUsmca).stackingOrder.map
        (fun e => e.exemption_code) = [some "9903.01.26"] ∧
      (apply_section_232_steel_logic steelTariffEx ansSteelUsmca productCA).exemption_code =
        some "9903.01.26") ∧
    ((analyze_stacking_with_exemptions catalogProductMX [steelTariffEx] [] rawAnswersUsmca).stackingOrder.map
        (fun e => e.exemption_code) = [some "9903.01.27"] ∧
      (apply_section_232_steel_logic steelTariffEx ansSteelUsmca productMX).exemption_code =
        some "9903.01.27") ∧
    ((analyze_stacking_with_exemptions catalogProductDE [steelTariffEx] [] rawAnswersMelted).stackingOrder.map
        (fun e => e.exemption_code) = [some "9903.81.92"] ∧
      (apply_section_232_steel_logic steelTariffEx ansSteelUS productDE).exemption_code =
        some "9903.81.92") ∧
    ((analyze_stacking_with_exemptions catalogProductCN [recipTariffEx] [] rawAnswersUsContent).stackingOrder.map
        (fun e => e.exemption_code) = [some "9903.01.34"] ∧
      (apply_ieepa_reciprocal_logic recipTariffEx ansUsContent productCN {}).map
        StackingResult.exemption_code = some (some "9903.01.34")) ∧
    ((SECTION_232_ALUMINUM_EXEMPTIONS.map Exemption.code).contains "US_ORIGIN_ALUMINUM" = true ∧
      (apply_section_232_aluminum_logic alumTariffEx ansAlumUS productDE).exemption_code =
        some "US_ORIGIN" ∧
      ("US_ORIGIN" : String) ≠ "US_ORIGIN_ALUMINUM") := by
  refine ⟨⟨by decide, by decide⟩, ⟨by decide, by decide⟩, ⟨by decide, by decide⟩,
    ⟨by decide, ?_⟩, ⟨by decide, by decide, by decide⟩⟩
  norm_num +decide [apply_ieepa_reciprocal_logic, counted_232_pct, ansUsContent, productCN,
    recipTariffEx, column_2_countries, special_calculation_countries, eu_countries, Option.map]

/-- The four material-composition Section 232 categories. -/
def materialCategories : List String :=
  ["section_232_steel", "section_232_aluminum", "section_232_copper", "section_232_lumber"]

/-- The per-tariff verdicts of a loop run carry their own tariffs, in
order. -/
theorem analyzeLoop_tariffs (a : Answers) (p : ProductInfo) :
    ∀ (ts : List Tariff) (hts : Bool) (s : Section232Results) (rs : List AnalyzedTariff),
    analyzeLoop a p hts s ts = some rs → rs.map AnalyzedTariff.tariff = ts := by
  intro ts
  induction ts with
  | nil =>
    intro hts s rs h
    simp only [analyzeLoop, Option.some.injEq] at h
    subst h
    rfl
  | cons t ts ih =>
    intro hts s rs h
    simp only [analyzeLoop] at h
    rcases heq : analyzeTariff a p hts s t with _ | ⟨res, h2, s2⟩ <;> rw [heq] at h <;>
      dsimp only at h
    · cases h
    · rcases hrec : analyzeLoop a p h2 s2 ts with _ | rest <;> rw [hrec] at h <;>
        dsimp only [Option.map] at h
      · cases h
      · rw [Option.some_inj] at h
        subst h
        simp [mergeResult, ih h2 s2 rest hrec]

/-- Once the `hts_based_232_applies` flag is set, every step keeps it
set. -/
theorem analyzeTariff_flag_mono (a : Answers) (p : ProductInfo) (s : Section232Results)
    (t : Tariff) (res : StackingResult) (h2 : Bool) (s2 : Section232Results)
    (h : analyzeTariff a p true s t = some (res, h2, s2)) : h2 = true := by
  unfold analyzeTariff at h
  split_ifs at h <;>
    simp only [Option.map_eq_some', Option.some.injEq, Prod.mk.injEq] at h <;>
    first
    | (obtain ⟨_, _, _, rfl, _⟩ := h; rfl)
    | (obtain ⟨_, rfl, _⟩ := h; rfl)

/-- With the flag set, every material-category tariff is short-circuited
to the HTS-override verdict: excluded, final amount 0. -/
theorem analyzeTariff_material_hts (a : Answers) (p : ProductInfo) (s : Section232Results)
    (t : Tariff) (res : StackingResult) (h2 : Bool) (s2 : Section232Results)
    (hcat : t.category ∈ materialCategories)
    (h : analyzeTariff a p true s t = some (res, h2, s2)) :
    res.excluded = true ∧ res.final_amount = 0 := by
  simp only [materialCategories, List.mem_cons, List.not_mem_nil, or_false] at hcat
  rcases hcat with hc | hc | hc | hc <;>
    (simp only [analyzeTariff, hc] at h; simp +decide [htsOverrideResult] at h;
     obtain ⟨rfl, -⟩ := h; exact ⟨rfl, rfl⟩)

/-- An automotive or buses verdict that is not excluded sets the flag. -/
theorem analyzeTariff_auto_sets_flag (a : Answers) (p : ProductInfo) (hts : Bool)
    (s : Section232Results) (t : Tariff) (res : StackingResult) (h2 : Bool)
    (s2 : Section232Results)
    (hcat : t.category = "section_232_automotive" ∨ t.category = "section_232_buses")
    (h : analyzeTariff a p hts s t = some (res, h2, s2))
    (hex : res.excluded = false) : h2 = true := by
  rcases hcat with hc | hc <;>
    (simp only [analyzeTariff, hc] at h; simp +decide at h;
     obtain ⟨rfl, rfl, -⟩ := h; simp [hex])

/-- With the flag set at entry, every material verdict the remaining
loop produces is excluded with final amount 0. -/
theorem analyzeLoop_hts_materials (a : Answers) (p : ProductInfo) :
    ∀ (ts : List Tariff) (s : Section232Results) (rs : List AnalyzedTariff),
    analyzeLoop a p true s ts = some rs →
    ∀ r ∈ rs, r.tariff.category ∈ materialCategories →
    r.excluded = true ∧ r.final_amount = 0 := by
  intro ts
  induction ts with
  | nil =>
    intro s rs h r hr
    simp only [analyzeLoop, Option.some.injEq] at h
    subst h
    cases hr
  | cons t ts ih =>
    intro s rs h r hr hmat
    simp only [analyzeLoop] at h
    rcases heq : analyzeTariff a p true s t with _ | ⟨res, h2, s2⟩ <;> rw [heq] at h <;>
      dsimp only at h
    · cases h
    · rcases hrec : analyzeLoop a p h2 s2 ts with _ | rest <;> rw [hrec] at h <;>
        dsimp only [Option.map] at h
      · cases h
      · rw [Option.some_inj] at h
        subst h
        have hflag : h2 = true := analyzeTariff_flag_mono a p s t res h2 s2 heq
        subst hflag
        rcases List.mem_cons.mp hr with rfl | hr
        · have := analyzeTariff_material_hts a p s t res true s2 hmat heq
          exact this
        · exact ih s2 rest hrec r hr hmat

/-- Inserting preserves the key-sortedness invariant. -/
theorem insertTariff_perm (t : Tariff) (l : List Tariff) :
    List.Perm (insertTariff t l) (t :: l) := by
  induction l with
  | nil => exact List.Perm.refl _
  | cons u us ih =>
    unfold insertTariff
    split_ifs
    · exact (ih.cons u).trans (List.Perm.swap t u us)
    · exact List.Perm.refl _

/-- The stable sort permutes its input. -/
theorem sortTariffs_perm (l : List Tariff) : List.Perm (sortTariffs l) l := by
  induction l with
  | nil => exact List.Perm.refl _
  | cons t ts ih => exact (insertTariff_perm t (sortTariffs ts)).trans (ih.cons t)

/-- Inserting into a key-sorted list keeps it key-sorted. -/
theorem insertTariff_pairwise (t : Tariff) (l : List Tariff)
    (h : List.Pairwise (fun x y => stackingOrderKey x.category ≤ stackingOrderKey y.category) l) :
    List.Pairwise (fun x y => stackingOrderKey x.category ≤ stackingOrderKey y.category)
      (insertTariff t l) := by
  induction l with
  | nil => simp [insertTariff]
  | cons u us ih =>
    rw [List.pairwise_cons] at h
    unfold insertTariff
    split_ifs with hk
    · rw [List.pairwise_cons]
      refine ⟨?_, ih h.2⟩
      intro x hx
      rcases List.mem_cons.mp ((insertTariff_perm t us).mem_iff.mp hx) with rfl | hx
      · exact Nat.le_of_lt hk
      · exact h.1 x hx
    · rw [List.pairwise_cons]
      refine ⟨?_, List.pairwise_cons.mpr h⟩
      intro x hx
      rcases List.mem_cons.mp hx with rfl | hx
      · exact Nat.le_of_not_lt hk
      · exact le_trans (Nat.le_of_not_lt hk) (h.1 x hx)

/-- The stable sort produces a key-sorted list. -/
theorem sortTariffs_pairwise (l : List Tariff) :
    List.Pairwise (fun x y => stackingOrderKey x.category ≤ stackingOrderKey y.category)
      (sortTariffs l) := by
  induction l with
  | nil => simp [sortTariffs]
  | cons t ts ih => exact insertTariff_pairwise t (sortTariffs ts) ih

/-- In a key-sorted loop input, a non-excluded automotive/buses verdict
shields every material verdict of the same run: each is excluded with
final amount 0. -/
theorem analyzeLoop_auto_shields (a : Answers) (p : ProductInfo) :
    ∀ (ts : List Tariff) (hts : Bool) (s : Section232Results) (rs : List AnalyzedTariff),
    List.Pairwise (fun x y => stackingOrderKey x.category ≤ stackingOrderKey y.category) ts →
    analyzeLoop a p hts s ts = some rs →
    ∀ r0 ∈ rs,
      (r0.tariff.category = "section_232_automotive" ∨ r0.tariff.category = "section_232_buses") →
    r0.excluded = false →
    ∀ r ∈ rs, r.tariff.category ∈ materialCategories →
    r.excluded = true ∧ r.final_amount = 0 := by
  intro ts
  induction ts with
  | nil =>
    intro hts s rs hpw h r0 hr0
    simp only [analyzeLoop, Option.some.injEq] at h
    subst h
    cases hr0
  | cons t ts ih =>
    intro hts s rs hpw h r0 hr0 hcat0 hex0 r hr hmat
    cases hts
    case true =>
      exact analyzeLoop_hts_materials a p (t :: ts) s rs h r hr hmat
    case false =>
    simp only [analyzeLoop] at h
    rcases heq : analyzeTariff a p false s t with _ | ⟨res, h2, s2⟩ <;> rw [heq] at h <;>
      dsimp only at h
    · cases h
    · rcases hrec : analyzeLoop a p h2 s2 ts with _ | rest <;> rw [hrec] at h <;>
        dsimp only [Option.map] at h
      · cases h
      · rw [Option.some_inj] at h
        subst h
        rw [List.pairwise_cons] at hpw
        rcases List.mem_cons.mp hr0 with rfl | hr0
        · -- the shielding verdict is the head
          have hflag : h2 = true :=
            analyzeTariff_auto_sets_flag a p false s t res h2 s2 hcat0 heq hex0
          subst hflag
          rcases List.mem_cons.mp hr with rfl | hr
          · -- the material verdict cannot also be the head
            exfalso
            rcases hcat0 with hc | hc <;> rw [hc] at hmat <;>
              simp [materialCategories] at hmat
          · exact analyzeLoop_hts_materials a p ts s2 rest hrec r hr hmat
        · rcases List.mem_cons.mp hr with rfl | hr
          · -- a material head before an automotive/buses entry contradicts sortedness
            exfalso
            have hmem : r0.tariff ∈ ts := by
              have hmap := analyzeLoop_tariffs a p ts h2 s2 rest hrec
              rw [← hmap]
              exact List.mem_map_of_mem AnalyzedTariff.tariff hr0
            have hle := hpw.1 r0.tariff hmem
            have h5 : 5 ≤ stackingOrderKey (mergeResult t res).tariff.category := by
              simp only [materialCategories, List.mem_cons, List.not_mem_nil, or_false] at hmat
              rcases hmat with hc | hc | hc | hc <;> rw [hc] <;> decide
            have h4 : stackingOrderKey r0.tariff.category ≤ 4 := by
              rcases hcat0 with hc | hc <;> rw [hc] <;> decide
            simp only [mergeResult] at h5
            omega
          · exact ih h2 s2 rest hpw.2 hrec r0 hr0 hcat0 hex0 r hr hmat

/-- C3: whenever the result list of an evaluation contains a
non-excluded automotive or buses verdict, every material verdict
(steel, aluminum, copper, lumber) of the same result list is excluded
with final amount 0, for all tariff lists, answer sets and product
infos. -/
theorem c3_materials_shielded_by_hts (ts : List Tariff) (a : Answers) (p : ProductInfo)
    (rs : List AnalyzedTariff)
    (hok : analyze_stacking ts a p = some rs)
    (r0 : AnalyzedTariff) (h0 : r0 ∈ rs)
    (hcat0 : r0.tariff.category = "section_232_automotive" ∨
      r0.tariff.category = "section_232_buses")
    (hnex : r0.excluded = false)
    (r : AnalyzedTariff) (hr : r ∈ rs)
    (hmat : r.tariff.category ∈ materialCategories) :
    r.excluded = true ∧ r.final_amount = 0 :=
  analyzeLoop_auto_shields a p (sortTariffs ts) false {} rs
    (sortTariffs_pairwise ts) hok r0 h0 hcat0 hnex r hr hmat

/-- C3 witness: an automotive plus steel evaluation from GB — the
automotive verdict applies, so the steel verdict is short-circuited. -/
theorem c3_materials_shielded_witness :
    (mergeResult steelTariffEx htsOverrideResult).excluded = true ∧
    (mergeResult steelTariffEx htsOverrideResult).final_amount = 0 :=
  c3_materials_shielded_by_hts [autoTariffEx, steelTariffEx] {} productGB
    [mergeResult autoTariffEx (apply_section_232_automotive_logic autoTariffEx {} productGB),
     mergeResult steelTariffEx htsOverrideResult]
    (by rfl)
    (mergeResult autoTariffEx (apply_section_232_automotive_logic autoTariffEx {} productGB))
    (List.Mem.head _) (Or.inl rfl) (by decide)
    (mergeResult steelTariffEx htsOverrideResult)
    (List.Mem.tail _ (List.Mem.head _)) (by decide)

/-- A steel verdict marked excluded has final amount 0. -/
theorem steel_excluded_zero (t : Tariff) (a : Answers) (p : ProductInfo)
    (h : (apply_section_232_steel_logic t a p).excluded = true) :
    (apply_section_232_steel_logic t a p).final_amount = 0 := by
  simp only [apply_section_232_steel_logic] at h ⊢
  split_ifs at h ⊢ <;> simp_all

/-- An aluminum verdict marked excluded has final amount 0. -/
theorem aluminum_excluded_zero (t : Tariff) (a : Answers) (p : ProductInfo)
    (h : (apply_section_232_aluminum_logic t a p).excluded = true) :
    (apply_section_232_aluminum_logic t a p).final_amount = 0 := by
  simp only [apply_section_232_aluminum_logic] at h ⊢
  split_ifs at h ⊢ <;> simp_all

/-- A copper verdict marked excluded has final amount 0. -/
theorem copper_excluded_zero (t : Tariff) (a : Answers) (p : ProductInfo)
    (h : (apply_section_232_copper_logic t a p).excluded = true) :
    (apply_section_232_copper_logic t a p).final_amount = 0 := by
  simp only [apply_section_232_copper_logic] at h ⊢
  split_ifs at h ⊢ <;> simp_all

/-- A lumber verdict marked excluded has final amount 0. -/
theorem lumber_excluded_zero (t : Tariff) (a : Answers) (p : ProductInfo)
    (h : (apply_section_232_lumber_logic t a p).excluded = true) :
    (apply_section_232_lumber_logic t a p).final_amount = 0 := by
  simp only [apply_section_232_lumber_logic] at h ⊢
  split_ifs at h ⊢
  simp_all

/-- A Section 301 verdict marked excluded has final amount 0. -/
theorem section_301_excluded_zero (t : Tariff) (a : Answers) (p : ProductInfo)
    (h : (apply_section_301_logic t a p).excluded = true) :
    (apply_section_301_logic t a p).final_amount = 0 := by
  simp only [apply_section_301_logic] at h ⊢
  split_ifs at h ⊢ <;> simp_all

/-- An IEEPA-fentanyl verdict marked excluded has final amount 0. -/
theorem fentanyl_excluded_zero (t : Tariff) (a : Answers) (p : ProductInfo)
    (h : (apply_ieepa_fentanyl_logic t a p).excluded = true) :
    (apply_ieepa_fentanyl_logic t a p).final_amount = 0 := by
  simp only [apply_ieepa_fentanyl_logic] at h ⊢
  split_ifs at h ⊢
  simp_all

/-- A buses verdict is never marked excluded. -/
theorem buses_not_excluded (t : Tariff) (a : Answers) (p : ProductInfo) :
    (apply_section_232_buses_logic t a p).excluded = false := rfl

/-- An IEEPA-reciprocal verdict marked excluded has final amount 0. -/
theorem reciprocal_excluded_zero (t : Tariff) (a : Answers) (p : ProductInfo)
    (s : Section232Results) (res : StackingResult)
    (h : apply_ieepa_reciprocal_logic t a p s = some res)
    (hex : res.excluded = true) : res.final_amount = 0 := by
  simp only [apply_ieepa_reciprocal_logic] at h
  repeat' split at h
  all_goals
    first
    | (exact Option.noConfusion h)
    | (rw [Option.some_inj] at h; subst h; simp_all)

/-- An excluded automotive verdict carries one of the two USMCA
exemption codes. -/
theorem automotive_excluded_code (t : Tariff) (a : Answers) (p : ProductInfo)
    (h : (apply_section_232_automotive_logic t a p).excluded = true) :
    (apply_section_232_automotive_logic t a p).exemption_code = some "9903.01.26" ∨
    (apply_section_232_automotive_logic t a p).exemption_code = some "9903.01.27" := by
  simp only [apply_section_232_automotive_logic] at h ⊢
  split_ifs at h ⊢ <;> simp_all

/-- Any excluded verdict out of one evaluation step with nonzero final
amount is an automotive verdict with a USMCA code. -/
theorem analyzeTariff_excluded_zero (a : Answers) (p : ProductInfo) (hts : Bool)
    (s : Section232Results) (t : Tariff) (res : StackingResult) (h2 : Bool)
    (s2 : Section232Results)
    (h : analyzeTariff a p hts s t = some (res, h2, s2))
    (hex : res.excluded = true) (hnz : res.final_amount ≠ 0) :
    t.category = "section_232_automotive" ∧
      (res.exemption_code = some "9903.01.26" ∨ res.exemption_code = some "9903.01.27") := by
  unfold analyzeTariff at h
  split_ifs at h with hc1 hc2 hc3 hc4 hc5 hc6 hc7 hc8 hc9 hc10 hc11 hc12 hc13
  all_goals
    simp only [Option.map_eq_some', Option.some.injEq, Prod.mk.injEq] at h
  -- automotive
  · obtain ⟨rfl, -, -⟩ := h
    exact ⟨hc1, automotive_excluded_code t a p hex⟩
  -- buses
  · obtain ⟨rfl, -, -⟩ := h
    rw [buses_not_excluded t a p] at hex
    cases hex
  -- steel (flag set / not set)
  · obtain ⟨rfl, -, -⟩ := h
    cases hnz rfl
  · obtain ⟨rfl, -, -⟩ := h
    cases hnz (steel_excluded_zero t a p hex)
  -- aluminum
  · obtain ⟨rfl, -, -⟩ := h
    cases hnz rfl
  · obtain ⟨rfl, -, -⟩ := h
    cases hnz (aluminum_excluded_zero t a p hex)
  -- copper
  · obtain ⟨rfl, -, -⟩ := h
    cases hnz rfl
  · obtain ⟨rfl, -, -⟩ := h
    cases hnz (copper_excluded_zero t a p hex)
  -- lumber
  · obtain ⟨rfl, -, -⟩ := h
    cases hnz rfl
  · obtain ⟨rfl, -, -⟩ := h
    cases hnz (lumber_excluded_zero t a p hex)
  -- section 301
  · obtain ⟨rfl, -, -⟩ := h
    cases hnz (section_301_excluded_zero t a p hex)
  -- ieepa reciprocal
  · obtain ⟨r, hr, rfl, -, -⟩ := h
    cases hnz (reciprocal_excluded_zero t a p s r hr hex)
  -- ieepa fentanyl
  · obtain ⟨rfl, -, -⟩ := h
    cases hnz (fentanyl_excluded_zero t a p hex)
  -- unknown category
  · obtain ⟨rfl, -, -⟩ := h
    cases hex

/-- Loop version: every excluded verdict with nonzero final amount came
from the automotive USMCA branch. -/
theorem analyzeLoop_excluded_zero (a : Answers) (p : ProductInfo) :
    ∀ (ts : List Tariff) (hts : Bool) (s : Section232Results) (rs : List AnalyzedTariff),
    analyzeLoop a p hts s ts = some rs →
    ∀ r ∈ rs, r.excluded = true → r.final_amount ≠ 0 →
    r.tariff.category = "section_232_automotive" ∧
      (r.exemption_code = some "9903.01.26" ∨ r.exemption_code = some "9903.01.27") := by
  intro ts
  induction ts with
  | nil =>
    intro hts s rs h r hr
    simp only [analyzeLoop, Option.some.injEq] at h
    subst h
    cases hr
  | cons t ts ih =>
    intro hts s rs h r hr hex hnz
    simp only [analyzeLoop] at h
    rcases heq : analyzeTariff a p hts s t with _ | ⟨res, h2, s2⟩ <;> rw [heq] at h <;>
      dsimp only at h
    · cases h
    · rcases hrec : analyzeLoop a p h2 s2 ts with _ | rest <;> rw [hrec] at h <;>
        dsimp only [Option.map] at h
      · cases h
      · rw [Option.some_inj] at h
        subst h
        rcases List.mem_cons.mp hr with rfl | hr
        · exact analyzeTariff_excluded_zero a p hts s t res h2 s2 heq hex hnz
        · exact ih h2 s2 rest hrec r hr hex hnz

/-- C2 counterexample: the automotive verdict of a USMCA-qualified CA
shipment is marked excluded yet carries the nonzero partial amount
150.78732 — refuting excluded ⇒ final_amount = 0. -/
theorem c2_counterexample_partial_exemption :
    (analyze_stacking [autoTariffEx] ansUsmcaYes productCA).map
      (fun rs => rs.map (fun r => (r.excluded, r.final_amount))) =
      some [(true, 150.78732)] ∧
    (150.78732 : ℚ) ≠ 0 := by
  constructor
  · norm_num +decide [analyze_stacking, analyzeLoop, analyzeTariff, sortTariffs, insertTariff,
      stackingOrderKey, STACKING_ORDER, apply_section_232_automotive_logic, mergeResult,
      autoTariffEx, ansUsmcaYes, productCA, Option.map]
  · norm_num

/-- C2 amended: in every evaluation result, an excluded verdict has
final amount 0 except for the automotive USMCA partial exemption: any
excluded verdict with nonzero final amount is an automotive verdict
carrying the CA or MX USMCA code. -/
theorem c2_excluded_implies_zero_except_auto (ts : List Tariff) (a : Answers)
    (p : ProductInfo) (rs : List AnalyzedTariff) (r : AnalyzedTariff)
    (hok : analyze_stacking ts a p = some rs) (hr : r ∈ rs)
    (hex : r.excluded = true) (hnz : r.final_amount ≠ 0) :
    r.tariff.category = "section_232_automotive" ∧
      (r.exemption_code = some "9903.01.26" ∨ r.exemption_code = some "9903.01.27") :=
  analyzeLoop_excluded_zero a p (sortTariffs ts) false {} rs hok r hr hex hnz

/-- C2 witness: the partially-exempt automotive verdict from CA is the
sole possible source of an excluded-but-nonzero amount. -/
theorem c2_excluded_zero_witness :
    (mergeResult autoTariffEx
        (apply_section_232_automotive_logic autoTariffEx ansUsmcaYes productCA)).tariff.category =
      "section_232_automotive" ∧
    ((mergeResult autoTariffEx
        (apply_section_232_automotive_logic autoTariffEx ansUsmcaYes productCA)).exemption_code =
      some "9903.01.26" ∨
     (mergeResult autoTariffEx
        (apply_section_232_automotive_logic autoTariffEx ansUsmcaYes productCA)).exemption_code =
      some "9903.01.27") :=
  c2_excluded_implies_zero_except_auto [autoTariffEx] ansUsmcaYes productCA
    [mergeResult autoTariffEx
      (apply_section_232_automotive_logic autoTariffEx ansUsmcaYes productCA)]
    (mergeResult autoTariffEx
      (apply_section_232_automotive_logic autoTariffEx ansUsmcaYes productCA))
    (by rfl) (List.Mem.head _) (by decide)
    (by norm_num [mergeResult, apply_section_232_automotive_logic, autoTariffEx,
      ansUsmcaYes, productCA])

/-- Two key-sorted lists that are permutations of each other and whose
keys are pairwise distinct are equal. -/
theorem sorted_nodup_eq :
    ∀ (l1 l2 : List Tariff), List.Perm l1 l2 →
    List.Pairwise (fun x y => stackingOrderKey x.category ≤ stackingOrderKey y.category) l1 →
    List.Pairwise (fun x y => stackingOrderKey x.category ≤ stackingOrderKey y.category) l2 →
    (l1.map (fun t => stackingOrderKey t.category)).Nodup →
    l1 = l2 := by
  intro l1
  induction l1 with
  | nil =>
    intro l2 hp _ _ _
    exact (hp.symm.eq_nil).symm
  | cons x t1 ih =>
    intro l2 hp hs1 hs2 hnd
    cases l2 with
    | nil => cases hp.eq_nil
    | cons y t2 =>
      rw [List.pairwise_cons] at hs1 hs2
      rw [List.map_cons, List.nodup_cons] at hnd
      have hxy : x = y := by
        rcases List.mem_cons.mp (hp.mem_iff.mp (List.mem_cons_self x t1)) with h | hx2
        · exact h
        · rcases List.mem_cons.mp (hp.symm.mem_iff.mp (List.mem_cons_self y t2)) with h | hy1
          · exact h.symm
          · exfalso
            have h1 : stackingOrderKey x.category ≤ stackingOrderKey y.category := hs1.1 y hy1
            have h2 : stackingOrderKey y.category ≤ stackingOrderKey x.category := hs2.1 x hx2
            have hkey : stackingOrderKey y.category ∈
                t1.map (fun t => stackingOrderKey t.category) :=
              List.mem_map_of_mem _ hy1
            rw [Nat.le_antisymm h2 h1] at hkey
            exact hnd.1 hkey
      subst hxy
      have hpt : List.Perm t1 t2 := hp.cons_inv
      rw [ih t2 hpt hs1.2 hs2.2 hnd.2]

/-- Permutation invariance of the stable sort under pairwise-distinct
keys. -/
theorem sortTariffs_eq_of_perm (l1 l2 : List Tariff) (hp : List.Perm l1 l2)
    (hnd : (l1.map (fun t => stackingOrderKey t.category)).Nodup) :
    sortTariffs l1 = sortTariffs l2 := by
  apply sorted_nodup_eq
  · exact (sortTariffs_perm l1).trans (hp.trans (sortTariffs_perm l2).symm)
  · exact sortTariffs_pairwise l1
  · exact sortTariffs_pairwise l2
  · exact (((sortTariffs_perm l1).map (fun t => stackingOrderKey t.category)).nodup_iff).mpr hnd

/-- C8 counterexample: two Section 301 tariffs share the sort key, so
the stable sort preserves their input order and permuting the input
changes the output: the result list is not permutation-invariant. -/
theorem c8_counterexample_duplicate_category :
    List.Perm [tariff301A, tariff301B] [tariff301B, tariff301A] ∧
    analyze_stacking [tariff301A, tariff301B] {} productDE ≠
      analyze_stacking [tariff301B, tariff301A] {} productDE :=
  ⟨List.Perm.swap _ _ _, by decide⟩

/-- C8 amended: every result list is sorted by the fixed category
priority table (unlisted categories keyed last), and permuting the input
leaves the output unchanged whenever the tariffs' priority keys are
pairwise distinct — with a duplicated category the stable sort instead
preserves input order. -/
theorem c8_sorted_and_perm_invariant :
    (∀ (ts : List Tariff) (a : Answers) (p : ProductInfo) (rs : List AnalyzedTariff),
      analyze_stacking ts a p = some rs →
      List.Pairwise
        (fun r1 r2 => stackingOrderKey r1.tariff.category ≤ stackingOrderKey r2.tariff.category)
        rs) ∧
    (∀ (ts ts2 : List Tariff) (a : Answers) (p : ProductInfo),
      List.Perm ts ts2 →
      (ts.map (fun t => stackingOrderKey t.category)).Nodup →
      analyze_stacking ts a p = analyze_stacking ts2 a p) := by
  constructor
  · intro ts a p rs hok
    have hmap := analyzeLoop_tariffs a p (sortTariffs ts) false {} rs hok
    have hpw := sortTariffs_pairwise ts
    rw [← hmap] at hpw
    exact List.Pairwise.of_map AnalyzedTariff.tariff (fun a b h => h) hpw
  · intro ts ts2 a p hp hnd
    unfold analyze_stacking
    rw [sortTariffs_eq_of_perm ts ts2 hp hnd]

/-- C8 witness: a fentanyl and a Section 301 tariff have distinct keys,
so swapping them in the input leaves the evaluation unchanged. -/
theorem c8_perm_invariant_witness :
    analyze_stacking [tariff301A, fentTariffEx] {} productDE =
      analyze_stacking [fentTariffEx, tariff301A] {} productDE :=
  (c8_sorted_and_perm_invariant).2 [tariff301A, fentTariffEx] [fentTariffEx, tariff301A]
    {} productDE (List.Perm.swap _ _ _) (by decide)

/-- Summing final amounts over all entries agrees with summing over the
non-excluded entries exactly when every excluded entry carries 0. -/
theorem sum_final_eq_sum_filter (l : List AnalyzedTariff)
    (h : ∀ r ∈ l, r.excluded = true → r.final_amount = 0) :
    (l.map AnalyzedTariff.final_amount).sum =
      ((l.filter (fun r => !r.excluded)).map AnalyzedTariff.final_amount).sum := by
  induction l with
  | nil => rfl
  | cons x xs ih =>
    have hx := h x (List.mem_cons_self x xs)
    have ihx := ih (fun r hr => h r (List.mem_cons_of_mem x hr))
    cases hex : x.excluded
    · simp [List.filter_cons, hex, ihx]
    · simp [List.filter_cons, hex, hx hex, ihx]

/-- C9 counterexample: for a USMCA-qualified automotive shipment from
CA, the endpoint's totalAfter is 150.78732 — the sum of final_amount
over ALL entries — while the sum over the non-excluded entries only is
0: totalAfter is not the claimed non-excluded sum. -/
theorem c9_counterexample_total_after :
    (analyze_stacking_endpoint [autoTariffEx] ansUsmcaYes productCA).map
      (fun res => (res.totalBefore, res.totalAfter,
        ((res.stackingOrder.filter (fun r => !r.excluded)).map AnalyzedTariff.final_amount).sum)) =
      some (250, 150.78732, 0) ∧
    (150.78732 : ℚ) ≠ 0 := by
  constructor
  · norm_num +decide [analyze_stacking_endpoint, analyze_stacking, analyzeLoop, analyzeTariff,
      sortTariffs, insertTariff, stackingOrderKey, STACKING_ORDER,
      apply_section_232_automotive_logic, mergeResult, autoTariffEx, ansUsmcaYes, productCA,
      Option.map, List.filter]
  · norm_num

/-- C9 amended: the aggregate satisfies totalBefore = Σ nominal amounts,
savings = totalBefore − totalAfter, and totalAfter = Σ final_amount over
ALL result entries; that sum equals the sum over the non-excluded
entries only when every excluded entry has final amount 0 — which the
partially-exempt automotive verdict violates. -/
theorem c9_aggregate_totals (ts : List Tariff) (a : Answers) (p : ProductInfo)
    (res : EndpointResult)
    (h : analyze_stacking_endpoint ts a p = some res) :
    res.totalBefore = (ts.map Tariff.amount).sum ∧
    res.totalAfter = (res.stackingOrder.map AnalyzedTariff.final_amount).sum ∧
    res.savings = res.totalBefore - res.totalAfter ∧
    ((∀ r ∈ res.stackingOrder, r.excluded = true → r.final_amount = 0) →
      res.totalAfter =
        ((res.stackingOrder.filter (fun r => !r.excluded)).map AnalyzedTariff.final_amount).sum) := by
  unfold analyze_stacking_endpoint at h
  rcases hok : analyze_stacking ts a p with _ | rs <;> rw [hok] at h <;>
    dsimp only [Option.map] at h
  · cases h
  · rw [Option.some_inj] at h
    subst h
    refine ⟨rfl, rfl, rfl, ?_⟩
    intro hz
    exact sum_final_eq_sum_filter rs hz

/-- C9 witness: a single fentanyl tariff from CN — the aggregate is
exactly the sums over the one applied entry. -/
theorem c9_aggregate_totals_witness :
    (analyze_stacking_endpoint [fentTariffEx] {} productCN).map EndpointResult.totalBefore =
      some (([fentTariffEx].map Tariff.amount).sum) ∧
    (analyze_stacking_endpoint [fentTariffEx] {} productCN).map EndpointResult.savings =
      some 0 := by
  have h : analyze_stacking_endpoint [fentTariffEx] {} productCN =
      some { stackingOrder :=
               [mergeResult fentTariffEx (apply_ieepa_fentanyl_logic fentTariffEx {} productCN)],
             totalBefore := ([fentTariffEx].map Tariff.amount).sum,
             totalAfter :=
               ([mergeResult fentTariffEx
                   (apply_ieepa_fentanyl_logic fentTariffEx {} productCN)].map
                 AnalyzedTariff.final_amount).sum,
             savings := ([fentTariffEx].map Tariff.amount).sum -
               ([mergeResult fentTariffEx
                   (apply_ieepa_fentanyl_logic fentTariffEx {} productCN)].map
                 AnalyzedTariff.final_amount).sum } := rfl
  have hc := c9_aggregate_totals [fentTariffEx] {} productCN _ h
  rw [h]
  exact ⟨congrArg some hc.1,
    congrArg some (by
      rw [hc.2.2.1]
      norm_num +decide [mergeResult, apply_ieepa_fentanyl_logic, fentTariffEx, productCN])⟩
